import Mathlib

/-!
Shallow embedding of src/static/script.js: the two browser event handlers
(the generateBtn click handler and the uploadForm submit handler) of the
network-traffic-anomaly-detection front end.

The DOM elements the script touches are modelled as an explicit `Dom`
record; side effects that are not DOM mutations (blocking alerts, issued
fetch requests, preventDefault) are returned alongside the new DOM state.
The network exchange is passed in as an `Except String r` value: `.error m`
is a rejected fetch or a JSON parse failure whose Error has message `m`,
`.ok data` is a parsed JSON body.  JS field absence is `Option`, and JS
truthiness of the `error` string field (absent and the empty string are
falsy) is the `truthy` predicate below.
-/

namespace Script

/-- Statistics object of a successful analyze response body. -/
structure Statistics where
  total_records : Nat
  anomaly_count : Nat
  anomaly_percentage : Nat
deriving DecidableEq, Repr

/-- One element of the analyze response recommendations array.  The nested
sub-recommendations array may be absent, in which case the renderer's call
to map throws a TypeError. -/
structure Recommendation where
  type : String
  severity : String
  description : String
  recommendations : Option (List String)
deriving DecidableEq, Repr

/-- Parsed JSON body of an analyze response. -/
structure AnalyzeResponse where
  error : Option String
  statistics : Option Statistics
  timestamp : String
  recommendations : Option (List Recommendation)
deriving DecidableEq, Repr

/-- Parsed JSON body of a generate_data response. -/
structure GenResponse where
  error : Option String
  filename : String
deriving DecidableEq, Repr

/-- JS truthiness of an optional string field: present and non-empty. -/
def truthy : Option String → Bool
  | some s => !(s == "")
  | none => false

/-- One request issued through fetch, with the data the script puts in the
request body. -/
inductive FetchReq where
  | generateData (start_date : String) (duration : String)
  | analyze (file : String)
deriving DecidableEq, Repr

/-- The DOM state the script reads and writes: visibility (presence of the
d-none class), text contents, innerHTML strings, image src attributes, and
the download button's onclick navigation target. -/
structure Dom where
  generationStatusHidden : Bool
  generationStatusHTML : String
  loadingHidden : Bool
  resultsHidden : Bool
  totalRecordsText : String
  anomalyCountText : String
  anomalyPercentageText : String
  scatterPlotSrc : String
  distributionPlotSrc : String
  downloadBtnHref : Option String
  recommendationsCardHidden : Bool
  recommendationsListHTML : String
deriving DecidableEq, Repr

/-- Non-DOM effects of one generate click: blocking alerts shown and fetch
requests issued, in order. -/
structure Effects where
  alerts : List String
  fetches : List FetchReq
deriving DecidableEq, Repr

/-- Non-DOM effects of one upload submit: whether preventDefault ran,
alerts shown and fetch requests issued. -/
structure UploadEffects where
  preventedDefault : Bool
  alerts : List String
  fetches : List FetchReq
deriving DecidableEq, Repr

/-- JS Array.prototype.join with the empty separator: plain concatenation
of the list of strings. -/
def joinAll : List String → String
  | [] => ""
  | s :: rest => s ++ joinAll rest

/-- Check whether the needle (first argument) occurs as a contiguous run
inside the haystack (second argument). -/
def listContains (needle : List Char) : List Char → Bool
  | [] => needle.isPrefixOf []
  | h :: t => needle.isPrefixOf (h :: t) || listContains needle t

/-- Substring check used to state which fragments the rendered HTML
contains. -/
def strContains (haystack needle : String) : Bool :=
  listContains needle.toList haystack.toList

/-- The template literal assigned to generationStatus.innerHTML on
generation success (lines 31-36 of script.js). -/
def successBanner (filename : String) : String :=
  "\n            <div class=\"alert alert-success\">\n                Sample data generated successfully!\n                <a href=\"/download_sample/" ++
  filename ++
  "\" class=\"btn btn-sm btn-primary ms-2\">Download</a>\n            </div>\n        "

/-- The template literal assigned to generationStatus.innerHTML in the
generation catch block (lines 39-43 of script.js). -/
def dangerBanner (msg : String) : String :=
  "\n            <div class=\"alert alert-danger\">\n                Error generating sample data: " ++
  msg ++
  "\n            </div>\n        "

/-- The generateBtn click handler (script.js lines 1-45).  `startDate` and
`duration` are the two field values read at entry; `net` is the outcome of
the fetch to /generate_data together with response.json(). -/
def generateClick (dom : Dom) (startDate duration : String)
    (net : Except String GenResponse) : Dom × Effects :=
  if startDate == "" then
    (dom, ⟨["Please select a start date"], []⟩)
  else
    let dom := { dom with generationStatusHidden := false }
    let eff : Effects := ⟨[], [FetchReq.generateData startDate duration]⟩
    match net with
    | Except.error m =>
        ({ dom with generationStatusHTML := dangerBanner m }, eff)
    | Except.ok data =>
        if truthy data.error then
          ({ dom with generationStatusHTML := dangerBanner (data.error.getD "") }, eff)
        else
          ({ dom with generationStatusHTML := successBanner data.filename }, eff)

/-- The inner template literal of the recommendations renderer: one
sub-recommendation list item (script.js lines 105-107). -/
def subRecItem (r : String) : String :=
  "\n                            <li class=\"list-group-item\">" ++ r ++
  "</li>\n                        "

/-- The outer template literal of the recommendations renderer: one
recommendation item, with the severity-conditional heading class, given the
already-present sub-recommendations list (script.js lines 98-110). -/
def recItemHtml (rec : Recommendation) (subs : List String) : String :=
  "\n                <div class=\"recommendation-item mb-3\">\n                    <h6 class=\"text-" ++
  (if rec.severity == "HIGH" then "danger" else "warning") ++
  "\">\n                        " ++ rec.type ++ " (" ++ rec.severity ++
  " Severity)\n                    </h6>\n                    <p class=\"mb-2\">" ++
  rec.description ++
  "</p>\n                    <ul class=\"list-group\">\n                        " ++
  joinAll (subs.map subRecItem) ++
  "\n                    </ul>\n                </div>\n            "

/-- Rendering of one recommendation item: accessing .map on an absent
sub-recommendations array throws a TypeError. -/
def renderRec (rec : Recommendation) : Except String String :=
  match rec.recommendations with
  | none => Except.error "Cannot read properties of undefined (reading map)"
  | some subs => Except.ok (recItemHtml rec subs)

/-- Rendering of the whole recommendations array and the join with the
empty separator; a TypeError in any item aborts the whole expression. -/
def renderRecs : List Recommendation → Except String String
  | [] => Except.ok ""
  | rec :: rest => do
      let h ← renderRec rec
      let t ← renderRecs rest
      Except.ok (h ++ t)

/-- Truthiness of `data.recommendations && data.recommendations.length > 0`
(script.js line 96): an array is truthy, so this is presence plus
non-emptiness. -/
def recsNonEmpty : Option (List Recommendation) → Bool
  | some l => decide (0 < l.length)
  | none => false

/-- The try block body of the uploadForm submit handler (script.js
lines 66-114), after the loading spinner was shown and prior results were
hidden.  A thrown exception yields `.error (dom, msg)` carrying the DOM
mutations already performed and the Error message the catch block sees. -/
def analyzeTry (dom : Dom) (net : Except String AnalyzeResponse) :
    Except (Dom × String) Dom :=
  match net with
  | Except.error m => Except.error (dom, m)
  | Except.ok data =>
    if truthy data.error then Except.error (dom, data.error.getD "")
    else
      match data.statistics with
      | none =>
          Except.error (dom, "Cannot read properties of undefined (reading total_records)")
      | some stats =>
        let dom := { dom with
          totalRecordsText := toString stats.total_records,
          anomalyCountText := toString stats.anomaly_count,
          anomalyPercentageText := toString stats.anomaly_percentage ++ "%",
          scatterPlotSrc := "/visualization/" ++ data.timestamp ++ "/scatter",
          distributionPlotSrc := "/visualization/" ++ data.timestamp ++ "/distribution",
          downloadBtnHref := some ("/download/" ++ data.timestamp) }
        let dom := { dom with loadingHidden := true, resultsHidden := false }
        if recsNonEmpty data.recommendations then
          match renderRecs (data.recommendations.getD []) with
          | Except.error m => Except.error (dom, m)
          | Except.ok html =>
              Except.ok { dom with
                recommendationsListHTML := html,
                recommendationsCardHidden := false }
        else
          Except.ok { dom with recommendationsCardHidden := true }

/-- The uploadForm submit handler (script.js lines 47-120).  `file` is
fileInput.files[0] (absent when no file is selected); `net` is the outcome
of the fetch to /analyze together with response.json(). -/
def uploadSubmit (dom : Dom) (file : Option String)
    (net : Except String AnalyzeResponse) : Dom × UploadEffects :=
  match file with
  | none => (dom, ⟨true, ["Please select a file"], []⟩)
  | some f =>
    let dom := { dom with loadingHidden := false, resultsHidden := true }
    match analyzeTry dom net with
    | Except.ok dom2 => (dom2, ⟨true, [], [FetchReq.analyze f]⟩)
    | Except.error (dom2, m) =>
        ({ dom2 with loadingHidden := true },
         ⟨true, ["Error: " ++ m], [FetchReq.analyze f]⟩)

/-- Classification of analyze-run errors that are raised before the
results reveal of script.js lines 93-94: a rejected fetch or JSON parse
failure, a truthy error field, or an absent statistics object.  Errors
thrown later (while rendering recommendations) are not of this kind. -/
def errBeforeReveal : Except String AnalyzeResponse → Bool
  | Except.error _ => true
  | Except.ok data => truthy data.error || data.statistics.isNone

/-- A default page state: everything that starts hidden is hidden, all
rendered strings empty, no download handler bound. -/
def dom0 : Dom :=
  { generationStatusHidden := true
    generationStatusHTML := ""
    loadingHidden := true
    resultsHidden := true
    totalRecordsText := ""
    anomalyCountText := ""
    anomalyPercentageText := ""
    scatterPlotSrc := ""
    distributionPlotSrc := ""
    downloadBtnHref := none
    recommendationsCardHidden := true
    recommendationsListHTML := "" }

/-! Helper lemmas about the substring check. -/

theorem toList_append (a b : String) : (a ++ b).toList = a.toList ++ b.toList := rfl

theorem isPrefixOf_self_append (n c : List Char) : n.isPrefixOf (n ++ c) = true := by
  induction n with
  | nil => simp [List.isPrefixOf]
  | cons x xs ih => simp [List.isPrefixOf, ih]

theorem listContains_of_isPrefixOf (n h : List Char) (hp : n.isPrefixOf h = true) :
    listContains n h = true := by
  cases h with
  | nil => simpa [listContains] using hp
  | cons x t => simp [listContains, hp]

theorem listContains_middle (a n c : List Char) : listContains n (a ++ (n ++ c)) = true := by
  induction a with
  | nil => exact listContains_of_isPrefixOf n (n ++ c) (isPrefixOf_self_append n c)
  | cons x xs ih => simp [listContains, ih]

theorem strContains_parts (h n : String) (a c : List Char)
    (he : h.toList = a ++ (n.toList ++ c)) : strContains h n = true := by
  unfold strContains
  rw [he]
  exact listContains_middle a n.toList c

theorem renderRecs_ok_of_subs (recs : List Recommendation)
    (h : recs.all (fun r => (Recommendation.recommendations r).isSome) = true) :
    renderRecs recs =
      Except.ok (joinAll (recs.map (fun r => recItemHtml r (r.recommendations.getD [])))) := by
  induction recs with
  | nil => simp [renderRecs, joinAll]
  | cons r rest ih =>
      simp only [List.all_cons, Bool.and_eq_true] at h
      obtain ⟨hr, hrest⟩ := h
      obtain ⟨subs, hsubs⟩ := Option.isSome_iff_exists.mp hr
      simp [renderRecs, renderRec, hsubs, ih hrest, joinAll]
      rfl

set_option maxRecDepth 100000 in
theorem recItemHtml_contains_title (r : Recommendation) (subs : List String) :
    strContains (recItemHtml r subs)
      (r.type ++ " (" ++ r.severity ++ " Severity)") = true := by
  apply strContains_parts _ _
    (("\n                <div class=\"recommendation-item mb-3\">\n                    <h6 class=\"text-" : String).toList
      ++ ((if r.severity == "HIGH" then "danger" else "warning") : String).toList
      ++ ("\">\n                        " : String).toList)
    (("\n                    </h6>\n                    <p class=\"mb-2\">" : String).toList
      ++ r.description.toList
      ++ ("</p>\n                    <ul class=\"list-group\">\n                        " : String).toList
      ++ (joinAll (subs.map subRecItem)).toList
      ++ ("\n                    </ul>\n                </div>\n            " : String).toList)
  have hsplit :
      (" Severity)\n                    </h6>\n                    <p class=\"mb-2\">" : String).toList
        = (" Severity)" : String).toList
          ++ ("\n                    </h6>\n                    <p class=\"mb-2\">" : String).toList := by
    decide
  simp [recItemHtml, toList_append, hsplit, List.append_assoc]

set_option maxRecDepth 100000 in
theorem recItemHtml_high_danger (r : Recommendation) (subs : List String)
    (h : r.severity = "HIGH") :
    strContains (recItemHtml r subs) "text-danger" = true := by
  apply strContains_parts _ _
    (("\n                <div class=\"recommendation-item mb-3\">\n                    <h6 class=\"" : String).toList)
    (("\">\n                        " : String).toList
      ++ r.type.toList ++ (" (" : String).toList ++ r.severity.toList
      ++ (" Severity)\n                    </h6>\n                    <p class=\"mb-2\">" : String).toList
      ++ r.description.toList
      ++ ("</p>\n                    <ul class=\"list-group\">\n                        " : String).toList
      ++ (joinAll (subs.map subRecItem)).toList
      ++ ("\n                    </ul>\n                </div>\n            " : String).toList)
  have hsplit1 :
      ("\n                <div class=\"recommendation-item mb-3\">\n                    <h6 class=\"text-" : String).toList
        = ("\n                <div class=\"recommendation-item mb-3\">\n                    <h6 class=\"" : String).toList
          ++ ("text-" : String).toList := by decide
  have hsplit2 : ("text-danger" : String).toList
      = ("text-" : String).toList ++ ("danger" : String).toList := by decide
  simp [recItemHtml, toList_append, h, hsplit1, hsplit2, List.append_assoc]

set_option maxRecDepth 100000 in
theorem recItemHtml_other_warning (r : Recommendation) (subs : List String)
    (h : r.severity ≠ "HIGH") :
    strContains (recItemHtml r subs) "text-warning" = true := by
  apply strContains_parts _ _
    (("\n                <div class=\"recommendation-item mb-3\">\n                    <h6 class=\"" : String).toList)
    (("\">\n                        " : String).toList
      ++ r.type.toList ++ (" (" : String).toList ++ r.severity.toList
      ++ (" Severity)\n                    </h6>\n                    <p class=\"mb-2\">" : String).toList
      ++ r.description.toList
      ++ ("</p>\n                    <ul class=\"list-group\">\n                        " : String).toList
      ++ (joinAll (subs.map subRecItem)).toList
      ++ ("\n                    </ul>\n                </div>\n            " : String).toList)
  have hsplit1 :
      ("\n                <div class=\"recommendation-item mb-3\">\n                    <h6 class=\"text-" : String).toList
        = ("\n                <div class=\"recommendation-item mb-3\">\n                    <h6 class=\"" : String).toList
          ++ ("text-" : String).toList := by decide
  have hsplit2 : ("text-warning" : String).toList
      = ("text-" : String).toList ++ ("warning" : String).toList := by decide
  simp [recItemHtml, toList_append, h, hsplit1, hsplit2, List.append_assoc]

/-! Claim theorems. -/

/-- C3: clicking generate while the start date field is empty alerts
"Please select a start date", leaves the DOM untouched, and issues no
fetch (in particular none to /generate_data). -/
theorem generate_empty_start_date_no_fetch (dom : Dom) (dur : String)
    (net : Except String GenResponse) :
    generateClick dom "" dur net =
      (dom, { alerts := ["Please select a start date"], fetches := [] }) := by
  simp [generateClick]

/-- C4: submitting the upload form with no file selected prevents the
default submission, alerts "Please select a file", leaves the DOM
untouched, and issues no fetch (in particular none to /analyze). -/
theorem upload_no_file_no_fetch (dom : Dom) (net : Except String AnalyzeResponse) :
    uploadSubmit dom none net =
      (dom, { preventedDefault := true
              alerts := ["Please select a file"]
              fetches := [] }) := by
  simp [uploadSubmit]

/-- C7: a generation response without a truthy error field and with
filename "sample.csv" leaves the generationStatus region visible with the
success banner as its content, and that banner carries a link whose href
is /download_sample/sample.csv. -/
theorem generate_success_renders_download_link (dom : Dom) (sd dur : String)
    (err : Option String) (hsd : sd ≠ "") (herr : truthy err = false) :
    (generateClick dom sd dur
        (Except.ok { error := err, filename := "sample.csv" })).1.generationStatusHidden
      = false ∧
    (generateClick dom sd dur
        (Except.ok { error := err, filename := "sample.csv" })).1.generationStatusHTML
      = successBanner "sample.csv" ∧
    strContains (successBanner "sample.csv") "href=\"/download_sample/sample.csv\"" = true := by
  have hbeq : (sd == "") = false := by simpa using hsd
  refine ⟨?_, ?_, ?_⟩
  · simp [generateClick, hbeq, herr]
  · simp [generateClick, hbeq, herr]
  · decide

/-- C7 witness at a concrete click. -/
theorem generate_success_renders_download_link_witness :
    ("2024-01-01" ≠ "" ∧ truthy none = false) ∧
    ((generateClick dom0 "2024-01-01" "7"
        (Except.ok { error := none, filename := "sample.csv" })).1.generationStatusHidden
      = false ∧
    (generateClick dom0 "2024-01-01" "7"
        (Except.ok { error := none, filename := "sample.csv" })).1.generationStatusHTML
      = successBanner "sample.csv" ∧
    strContains (successBanner "sample.csv") "href=\"/download_sample/sample.csv\"" = true) :=
  ⟨⟨by decide, rfl⟩,
   generate_success_renders_download_link dom0 "2024-01-01" "7" none (by decide) rfl⟩

/-- C8: on a generation body carrying error "bad range", and likewise on a
network failure with message m, the handler writes the inline danger banner
into generationStatus — containing "Error generating sample data: " and the
message — and shows no alert. -/
theorem generate_error_renders_inline_banner (dom : Dom) (sd dur fn m : String)
    (hsd : sd ≠ "") :
    ((generateClick dom sd dur
        (Except.ok { error := some "bad range", filename := fn })).1.generationStatusHTML
      = dangerBanner "bad range" ∧
    (generateClick dom sd dur
        (Except.ok { error := some "bad range", filename := fn })).2.alerts = [] ∧
    strContains (dangerBanner "bad range") "Error generating sample data: bad range" = true) ∧
    ((generateClick dom sd dur (Except.error m)).1.generationStatusHTML = dangerBanner m ∧
    (generateClick dom sd dur (Except.error m)).2.alerts = [] ∧
    strContains (dangerBanner m) ("Error generating sample data: " ++ m) = true) := by
  have hbeq : (sd == "") = false := by simpa using hsd
  refine ⟨⟨?_, ?_, ?_⟩, ⟨?_, ?_, ?_⟩⟩
  · simp [generateClick, hbeq, truthy]
  · simp [generateClick, hbeq, truthy]
  · decide
  · simp [generateClick, hbeq]
  · simp [generateClick, hbeq]
  · apply strContains_parts _ _
      ("\n            <div class=\"alert alert-danger\">\n                ").toList
      ("\n            </div>\n        ").toList
    have h1 :
        ("\n            <div class=\"alert alert-danger\">\n                Error generating sample data: ").toList
          = ("\n            <div class=\"alert alert-danger\">\n                ").toList
            ++ ("Error generating sample data: ").toList := by decide
    simp [dangerBanner, toList_append, h1, List.append_assoc]

/-- C8 witness at a concrete click. -/
theorem generate_error_renders_inline_banner_witness :
    ("2024-01-01" ≠ "") ∧
    (((generateClick dom0 "2024-01-01" "7"
        (Except.ok { error := some "bad range", filename := "f.csv" })).1.generationStatusHTML
      = dangerBanner "bad range" ∧
    (generateClick dom0 "2024-01-01" "7"
        (Except.ok { error := some "bad range", filename := "f.csv" })).2.alerts = [] ∧
    strContains (dangerBanner "bad range") "Error generating sample data: bad range" = true) ∧
    ((generateClick dom0 "2024-01-01" "7" (Except.error "Failed to fetch")).1.generationStatusHTML
      = dangerBanner "Failed to fetch" ∧
    (generateClick dom0 "2024-01-01" "7" (Except.error "Failed to fetch")).2.alerts = [] ∧
    strContains (dangerBanner "Failed to fetch")
      ("Error generating sample data: " ++ "Failed to fetch") = true)) :=
  ⟨by decide,
   generate_error_renders_inline_banner dom0 "2024-01-01" "7" "f.csv" "Failed to fetch"
     (by decide)⟩

/-- C9: both handlers branch on the truthiness, not the presence, of the
error field: with error present but equal to the falsy empty string, the
generate handler renders the success banner and the analyze handler renders
the success fields and reveals the results panel, with no alert. -/
theorem error_field_falsy_takes_success_path :
    truthy (some "") = false ∧
    (generateClick dom0 "2024-01-01" "7"
        (Except.ok { error := some "", filename := "f.csv" })).1.generationStatusHTML
      = successBanner "f.csv" ∧
    (uploadSubmit dom0 (some "capture.csv")
        (Except.ok { error := some "", statistics := some ⟨100, 5, 5⟩,
                     timestamp := "t1", recommendations := none })).1.totalRecordsText
      = "100" ∧
    (uploadSubmit dom0 (some "capture.csv")
        (Except.ok { error := some "", statistics := some ⟨100, 5, 5⟩,
                     timestamp := "t1", recommendations := none })).1.resultsHidden
      = false ∧
    (uploadSubmit dom0 (some "capture.csv")
        (Except.ok { error := some "", statistics := some ⟨100, 5, 5⟩,
                     timestamp := "t1", recommendations := none })).2.alerts
      = [] :=
  ⟨rfl, rfl, rfl, rfl, rfl⟩

/-- C1: a successful analyze response with statistics 100/5/5 and
timestamp "t1" leaves the three stat texts at "100", "5", "5%", the two
plot images at /visualization/t1/scatter and /visualization/t1/distribution,
and the download button navigating to /download/t1. -/
theorem analyze_success_renders_stats (dom : Dom) (f : String)
    (err : Option String) (recs : Option (List Recommendation))
    (herr : truthy err = false) :
    (uploadSubmit dom (some f)
        (Except.ok { error := err, statistics := some ⟨100, 5, 5⟩,
                     timestamp := "t1", recommendations := recs })).1.totalRecordsText
      = "100" ∧
    (uploadSubmit dom (some f)
        (Except.ok { error := err, statistics := some ⟨100, 5, 5⟩,
                     timestamp := "t1", recommendations := recs })).1.anomalyCountText
      = "5" ∧
    (uploadSubmit dom (some f)
        (Except.ok { error := err, statistics := some ⟨100, 5, 5⟩,
                     timestamp := "t1", recommendations := recs })).1.anomalyPercentageText
      = "5%" ∧
    (uploadSubmit dom (some f)
        (Except.ok { error := err, statistics := some ⟨100, 5, 5⟩,
                     timestamp := "t1", recommendations := recs })).1.scatterPlotSrc
      = "/visualization/t1/scatter" ∧
    (uploadSubmit dom (some f)
        (Except.ok { error := err, statistics := some ⟨100, 5, 5⟩,
                     timestamp := "t1", recommendations := recs })).1.distributionPlotSrc
      = "/visualization/t1/distribution" ∧
    (uploadSubmit dom (some f)
        (Except.ok { error := err, statistics := some ⟨100, 5, 5⟩,
                     timestamp := "t1", recommendations := recs })).1.downloadBtnHref
      = some "/download/t1" := by
  cases hre : recsNonEmpty recs with
  | false =>
      simp [uploadSubmit, analyzeTry, herr, hre]
      exact ⟨rfl, rfl, rfl⟩
  | true =>
      cases hrr : renderRecs (recs.getD []) with
      | error m =>
          simp [uploadSubmit, analyzeTry, herr, hre, hrr]
          exact ⟨rfl, rfl, rfl⟩
      | ok html =>
          simp [uploadSubmit, analyzeTry, herr, hre, hrr]
          exact ⟨rfl, rfl, rfl⟩

/-- C1 witness at a concrete submit. -/
theorem analyze_success_renders_stats_witness :
    (truthy none = false) ∧
    ((uploadSubmit dom0 (some "capture.csv")
        (Except.ok { error := none, statistics := some ⟨100, 5, 5⟩,
                     timestamp := "t1", recommendations := none })).1.totalRecordsText
      = "100" ∧
    (uploadSubmit dom0 (some "capture.csv")
        (Except.ok { error := none, statistics := some ⟨100, 5, 5⟩,
                     timestamp := "t1", recommendations := none })).1.anomalyCountText
      = "5" ∧
    (uploadSubmit dom0 (some "capture.csv")
        (Except.ok { error := none, statistics := some ⟨100, 5, 5⟩,
                     timestamp := "t1", recommendations := none })).1.anomalyPercentageText
      = "5%" ∧
    (uploadSubmit dom0 (some "capture.csv")
        (Except.ok { error := none, statistics := some ⟨100, 5, 5⟩,
                     timestamp := "t1", recommendations := none })).1.scatterPlotSrc
      = "/visualization/t1/scatter" ∧
    (uploadSubmit dom0 (some "capture.csv")
        (Except.ok { error := none, statistics := some ⟨100, 5, 5⟩,
                     timestamp := "t1", recommendations := none })).1.distributionPlotSrc
      = "/visualization/t1/distribution" ∧
    (uploadSubmit dom0 (some "capture.csv")
        (Except.ok { error := none, statistics := some ⟨100, 5, 5⟩,
                     timestamp := "t1", recommendations := none })).1.downloadBtnHref
      = some "/download/t1") :=
  ⟨rfl, analyze_success_renders_stats dom0 "capture.csv" none none rfl⟩

/-- C6: a successful analyze response whose recommendations are an empty
list or absent ends with the recommendations card hidden and the
recommendations list untouched. -/
theorem analyze_empty_recommendations_card_hidden (dom : Dom) (f : String)
    (data : AnalyzeResponse) (s : Statistics)
    (herr : truthy data.error = false)
    (hstats : data.statistics = some s)
    (hrecs : data.recommendations = some [] ∨ data.recommendations = none) :
    (uploadSubmit dom (some f) (Except.ok data)).1.recommendationsCardHidden = true ∧
    (uploadSubmit dom (some f) (Except.ok data)).1.recommendationsListHTML
      = dom.recommendationsListHTML := by
  have hre : recsNonEmpty data.recommendations = false := by
    rcases hrecs with h | h <;> simp [h, recsNonEmpty]
  simp [uploadSubmit, analyzeTry, herr, hstats, hre]

/-- C6 witness at a concrete submit with an empty recommendations list. -/
theorem analyze_empty_recommendations_card_hidden_witness :
    (truthy (AnalyzeResponse.error
        { error := none, statistics := some ⟨100, 5, 5⟩,
          timestamp := "t1", recommendations := some [] }) = false ∧
     AnalyzeResponse.statistics
        { error := none, statistics := some ⟨100, 5, 5⟩,
          timestamp := "t1", recommendations := some [] } = some ⟨100, 5, 5⟩) ∧
    ((uploadSubmit dom0 (some "capture.csv")
        (Except.ok { error := none, statistics := some ⟨100, 5, 5⟩,
                     timestamp := "t1", recommendations := some [] })).1.recommendationsCardHidden
      = true ∧
    (uploadSubmit dom0 (some "capture.csv")
        (Except.ok { error := none, statistics := some ⟨100, 5, 5⟩,
                     timestamp := "t1", recommendations := some [] })).1.recommendationsListHTML
      = dom0.recommendationsListHTML) :=
  ⟨⟨rfl, rfl⟩,
   analyze_empty_recommendations_card_hidden dom0 "capture.csv"
     { error := none, statistics := some ⟨100, 5, 5⟩,
       timestamp := "t1", recommendations := some [] } ⟨100, 5, 5⟩ rfl rfl (Or.inl rfl)⟩

/-- C5: a successful analyze response with a non-empty recommendations
list reveals the recommendations card and renders one item per
recommendation; each item carries the title "type (severity Severity)" and
a text-danger heading exactly when the severity is "HIGH", text-warning
otherwise. -/
theorem analyze_recommendations_rendered (dom : Dom) (f : String)
    (err : Option String) (s : Statistics) (ts : String)
    (recs : List Recommendation)
    (herr : truthy err = false)
    (hne : recs ≠ [])
    (hsubs : recs.all (fun r => (Recommendation.recommendations r).isSome) = true) :
    (uploadSubmit dom (some f)
        (Except.ok { error := err, statistics := some s, timestamp := ts,
                     recommendations := some recs })).1.recommendationsCardHidden
      = false ∧
    (uploadSubmit dom (some f)
        (Except.ok { error := err, statistics := some s, timestamp := ts,
                     recommendations := some recs })).1.recommendationsListHTML
      = joinAll (recs.map (fun r => recItemHtml r (r.recommendations.getD []))) ∧
    recs.all (fun r =>
      strContains (recItemHtml r (r.recommendations.getD []))
          (r.type ++ " (" ++ r.severity ++ " Severity)") &&
        strContains (recItemHtml r (r.recommendations.getD []))
          (if r.severity == "HIGH" then "text-danger" else "text-warning")) = true := by
  have hre : recsNonEmpty (some recs) = true := by
    cases recs with
    | nil => exact absurd rfl hne
    | cons a l => simp [recsNonEmpty]
  have hrr := renderRecs_ok_of_subs recs hsubs
  refine ⟨?_, ?_, ?_⟩
  · simp [uploadSubmit, analyzeTry, herr, hre, hrr]
  · simp [uploadSubmit, analyzeTry, herr, hre, hrr]
  · rw [List.all_eq_true]
    intro r hr
    rw [Bool.and_eq_true]
    refine ⟨recItemHtml_contains_title r _, ?_⟩
    by_cases hsev : r.severity = "HIGH"
    · simp only [hsev]
      simpa using recItemHtml_high_danger r _ hsev
    · have : (r.severity == "HIGH") = false := by simpa using hsev
      rw [this]
      simpa using recItemHtml_other_warning r _ hsev

/-- C5 witness at the concrete example of the spec. -/
theorem analyze_recommendations_rendered_witness :
    (truthy none = false ∧
     ([({ type := "Spike", severity := "HIGH", description := "d",
          recommendations := some ["fix it"] } : Recommendation)] ≠ []) ∧
     ([({ type := "Spike", severity := "HIGH", description := "d",
          recommendations := some ["fix it"] } : Recommendation)].all
        (fun r => (Recommendation.recommendations r).isSome) = true)) ∧
    ((uploadSubmit dom0 (some "capture.csv")
        (Except.ok { error := none, statistics := some ⟨100, 5, 5⟩, timestamp := "t1",
                     recommendations := some [{ type := "Spike", severity := "HIGH",
                                                description := "d",
                                                recommendations := some ["fix it"] }] })).1.recommendationsCardHidden
      = false ∧
    (uploadSubmit dom0 (some "capture.csv")
        (Except.ok { error := none, statistics := some ⟨100, 5, 5⟩, timestamp := "t1",
                     recommendations := some [{ type := "Spike", severity := "HIGH",
                                                description := "d",
                                                recommendations := some ["fix it"] }] })).1.recommendationsListHTML
      = joinAll ([({ type := "Spike", severity := "HIGH", description := "d",
                     recommendations := some ["fix it"] } : Recommendation)].map
          (fun r => recItemHtml r (r.recommendations.getD []))) ∧
    [({ type := "Spike", severity := "HIGH", description := "d",
        recommendations := some ["fix it"] } : Recommendation)].all (fun r =>
      strContains (recItemHtml r (r.recommendations.getD []))
          (r.type ++ " (" ++ r.severity ++ " Severity)") &&
        strContains (recItemHtml r (r.recommendations.getD []))
          (if r.severity == "HIGH" then "text-danger" else "text-warning")) = true) :=
  ⟨⟨rfl, by decide, rfl⟩,
   analyze_recommendations_rendered dom0 "capture.csv" none ⟨100, 5, 5⟩ "t1"
     [{ type := "Spike", severity := "HIGH", description := "d",
        recommendations := some ["fix it"] }] rfl (by decide) rfl⟩

/-- C2 counterexample: an exception thrown while rendering recommendations
(here: a recommendation whose sub-recommendations array is absent, so the
call to map throws) is an error run — the handler alerts and hides the
loading indicator — yet the handler finishes with the results panel
visible, because the reveal at script.js lines 93-94 already ran and the
catch block does not re-hide it. -/
theorem upload_render_error_leaves_results_visible :
    (uploadSubmit dom0 (some "capture.csv")
        (Except.ok { error := none, statistics := some ⟨100, 5, 5⟩, timestamp := "t1",
                     recommendations := some [{ type := "Spike", severity := "HIGH",
                                                description := "d",
                                                recommendations := none }] })).2.alerts
      = ["Error: Cannot read properties of undefined (reading map)"] ∧
    (uploadSubmit dom0 (some "capture.csv")
        (Except.ok { error := none, statistics := some ⟨100, 5, 5⟩, timestamp := "t1",
                     recommendations := some [{ type := "Spike", severity := "HIGH",
                                                description := "d",
                                                recommendations := none }] })).1.loadingHidden
      = true ∧
    (uploadSubmit dom0 (some "capture.csv")
        (Except.ok { error := none, statistics := some ⟨100, 5, 5⟩, timestamp := "t1",
                     recommendations := some [{ type := "Spike", severity := "HIGH",
                                                description := "d",
                                                recommendations := none }] })).1.resultsHidden
      = false :=
  ⟨rfl, rfl, rfl⟩

/-- C2 (amended): every analyze run that ends in an error shows the
blocking alert "Error: " followed by the message and adds d-none to the
loading indicator; the results panel is left hidden whenever the error is
raised before the results reveal (network or parse failure, truthy error
field, or missing statistics object), while an exception thrown during
recommendations rendering leaves the results panel visible. -/
theorem upload_error_alerts_and_hides_loading (dom : Dom) (f : String)
    (net : Except String AnalyzeResponse) (d2 : Dom) (m : String)
    (h : analyzeTry { dom with loadingHidden := false, resultsHidden := true } net
         = Except.error (d2, m)) :
    (uploadSubmit dom (some f) net).2.alerts = ["Error: " ++ m] ∧
    (uploadSubmit dom (some f) net).1.loadingHidden = true ∧
    (errBeforeReveal net = true →
      (uploadSubmit dom (some f) net).1.resultsHidden = true) := by
  refine ⟨?_, ?_, ?_⟩
  · simp [uploadSubmit, h]
  · simp [uploadSubmit, h]
  · intro hb
    suffices hs : d2.resultsHidden = true by simp [uploadSubmit, h, hs]
    cases net with
    | error m2 =>
        simp only [analyzeTry, Except.error.injEq, Prod.mk.injEq] at h
        rw [← h.1]
    | ok data =>
        by_cases htr : truthy data.error = true
        · simp only [analyzeTry, htr, if_true, Except.error.injEq, Prod.mk.injEq] at h
          rw [← h.1]
        · have htr' : truthy data.error = false := by simpa using htr
          have hnone : data.statistics = none := by
            simp only [errBeforeReveal, htr', Bool.false_or] at hb
            exact Option.isNone_iff_eq_none.mp hb
          simp only [analyzeTry, htr', hnone, Bool.false_eq_true, if_false,
            Except.error.injEq, Prod.mk.injEq] at h
          rw [← h.1]

/-- C2 (amended) witness at a concrete error response. -/
theorem upload_error_alerts_and_hides_loading_witness :
    (analyzeTry { dom0 with loadingHidden := false, resultsHidden := true }
        (Except.ok { error := some "boom", statistics := none, timestamp := "t",
                     recommendations := none })
      = Except.error
          ({ dom0 with loadingHidden := false, resultsHidden := true }, "boom")) ∧
    ((uploadSubmit dom0 (some "capture.csv")
        (Except.ok { error := some "boom", statistics := none, timestamp := "t",
                     recommendations := none })).2.alerts = ["Error: " ++ "boom"] ∧
    (uploadSubmit dom0 (some "capture.csv")
        (Except.ok { error := some "boom", statistics := none, timestamp := "t",
                     recommendations := none })).1.loadingHidden = true ∧
    (errBeforeReveal
        (Except.ok { error := some "boom", statistics := none, timestamp := "t",
                     recommendations := none }) = true →
      (uploadSubmit dom0 (some "capture.csv")
        (Except.ok { error := some "boom", statistics := none, timestamp := "t",
                     recommendations := none })).1.resultsHidden = true)) :=
  ⟨rfl,
   upload_error_alerts_and_hides_loading dom0 "capture.csv"
     (Except.ok { error := some "boom", statistics := none, timestamp := "t",
                  recommendations := none })
     { dom0 with loadingHidden := false, resultsHidden := true } "boom" rfl⟩

/-- C10: the analyze success path is idempotent on the DOM state: when the
try block succeeds on a response, running the submit handler a second time
on the DOM it produced, with the same response, yields the same DOM state,
because every field the success path touches is overwritten with a value
depending only on the response. -/
theorem upload_success_idempotent (dom : Dom) (f : String)
    (net : Except String AnalyzeResponse) (d1 : Dom)
    (h : analyzeTry { dom with loadingHidden := false, resultsHidden := true } net
         = Except.ok d1) :
    (uploadSubmit (uploadSubmit dom (some f) net).1 (some f) net).1
      = (uploadSubmit dom (some f) net).1 := by
  cases net with
  | error m => simp [analyzeTry] at h
  | ok data =>
      cases htr : truthy data.error with
      | true => simp [analyzeTry, htr] at h
      | false =>
        cases hst : data.statistics with
        | none => simp [analyzeTry, htr, hst] at h
        | some s =>
          cases hre : recsNonEmpty data.recommendations with
          | false => simp [uploadSubmit, analyzeTry, htr, hst, hre]
          | true =>
              cases hrr : renderRecs (data.recommendations.getD []) with
              | error m => simp [analyzeTry, htr, hst, hre, hrr] at h
              | ok html => simp [uploadSubmit, analyzeTry, htr, hst, hre, hrr]

/-- C10 witness at a concrete successful run. -/
theorem upload_success_idempotent_witness :
    (analyzeTry { dom0 with loadingHidden := false, resultsHidden := true }
        (Except.ok { error := none, statistics := some ⟨100, 5, 5⟩, timestamp := "t1",
                     recommendations := none })
      = Except.ok
          { dom0 with loadingHidden := true, resultsHidden := false,
                      totalRecordsText := "100", anomalyCountText := "5",
                      anomalyPercentageText := "5%",
                      scatterPlotSrc := "/visualization/t1/scatter",
                      distributionPlotSrc := "/visualization/t1/distribution",
                      downloadBtnHref := some "/download/t1",
                      recommendationsCardHidden := true }) ∧
    (uploadSubmit
        (uploadSubmit dom0 (some "capture.csv")
          (Except.ok { error := none, statistics := some ⟨100, 5, 5⟩, timestamp := "t1",
                       recommendations := none })).1 (some "capture.csv")
        (Except.ok { error := none, statistics := some ⟨100, 5, 5⟩, timestamp := "t1",
                     recommendations := none })).1
      = (uploadSubmit dom0 (some "capture.csv")
          (Except.ok { error := none, statistics := some ⟨100, 5, 5⟩, timestamp := "t1",
                       recommendations := none })).1 :=
  ⟨rfl,
   upload_success_idempotent dom0 "capture.csv"
     (Except.ok { error := none, statistics := some ⟨100, 5, 5⟩, timestamp := "t1",
                  recommendations := none })
     { dom0 with loadingHidden := true, resultsHidden := false,
                 totalRecordsText := "100", anomalyCountText := "5",
                 anomalyPercentageText := "5%",
                 scatterPlotSrc := "/visualization/t1/scatter",
                 distributionPlotSrc := "/visualization/t1/distribution",
                 downloadBtnHref := some "/download/t1",
                 recommendationsCardHidden := true }
     rfl⟩

end Script
